import Mathlib

/-!
Verification of `sample_vector_from_raster.py`: a shallow embedding of the
D2R raster-sampling script and proofs about it.

The script has three parts that the development models:

* the File Selector inside `SampleVectorFromRaster.sample` (directory
  listing filtered to `.tif`, a year/day-of-year filename filter against a
  date range, and a chronological sort keyed by
  `datetime.strptime(tok4 ++ tok5 ++ tok6, "%Y%j%H")`);
* the single-raster sampler `_d2r_sampling` (timestamp string, CRS check,
  per-point sampling, no-data counting, filename column);
* the orchestration in `sample` (drop null geometries, run the sampler per
  selected file in order, concatenate).

Python `datetime` values are mapped to seconds on the proleptic Gregorian
calendar (`date.toordinal` convention: ordinal 1 is 0001-01-01).  CPython
`strptime` directives are modelled at the character level with the ordered
alternation and backtracking semantics of its `_strptime` regexes, because
the script concatenates the year, day-of-year and hour tokens without a
separator, which makes the greedy parse observable.  Raster cell values are
abstracted to integers (the script only moves them around and compares them
for equality with the integer no-data sentinel; `astype(float)` is
value-preserving on them), and point coordinates are abstracted to integer
pairs that are passed opaquely to the sampling map.
-/

namespace SampleVectorFromRaster

/-! ## Calendar arithmetic (Python `datetime` / `date.toordinal`) -/

/-- Gregorian leap-year test, as in Python `calendar.isleap`. -/
def isLeap (y : Nat) : Bool := y % 4 == 0 && (y % 100 != 0 || y % 400 == 0)

/-- Number of days in year `y`. -/
def daysInYear (y : Nat) : Nat := if isLeap y then 366 else 365

/-- Number of leap years in `1..n`. -/
def leapsBefore (n : Nat) : Nat := n / 4 - n / 100 + n / 400

/-- Days from 0001-01-01 to `y`-01-01 (so `toOrdinal y 1 1 = daysBeforeYear y + 1`,
matching Python `date.toordinal`). -/
def daysBeforeYear (y : Nat) : Nat := 365 * (y - 1) + leapsBefore (y - 1)

/-- Length of month `m` of year `y`. -/
def daysInMonth (y m : Nat) : Nat :=
  match m with
  | 1 => 31 | 2 => if isLeap y then 29 else 28 | 3 => 31 | 4 => 30
  | 5 => 31 | 6 => 30 | 7 => 31 | 8 => 31 | 9 => 30 | 10 => 31
  | 11 => 30 | 12 => 31 | _ => 0

/-- Days of year `y` that precede month `m`. -/
def daysBeforeMonth (y m : Nat) : Nat :=
  let L : Nat := if isLeap y then 1 else 0
  match m with
  | 1 => 0 | 2 => 31 | 3 => 59 + L | 4 => 90 + L | 5 => 120 + L
  | 6 => 151 + L | 7 => 181 + L | 8 => 212 + L | 9 => 243 + L
  | 10 => 273 + L | 11 => 304 + L | 12 => 334 + L | _ => 0

/-- Python `date(y, m, d).toordinal()`. -/
def toOrdinal (y m d : Nat) : Nat := daysBeforeYear y + daysBeforeMonth y m + d

/-- `date.max.toordinal()` in Python, the ordinal of 9999-12-31. -/
def maxOrdinal : Nat := 3652059

/-- A calendar date, as produced by `datetime.strptime(s, "%Y%m%d")`. -/
structure Date where
  year : Nat
  month : Nat
  day : Nat
deriving DecidableEq, Repr

/-- `datetime` constructor validity for a calendar date. -/
def validYmd (d : Date) : Bool :=
  1 ≤ d.year && d.year ≤ 9999 && 1 ≤ d.month && d.month ≤ 12 &&
    1 ≤ d.day && d.day ≤ daysInMonth d.year d.month

/-- Seconds value of `datetime(y, m, d)` (midnight), the parsed `start_date`
of line 68 of the script. -/
def dateStartSec (d : Date) : Int := (toOrdinal d.year d.month d.day : Int) * 86400

/-- Seconds value of `datetime(y, m, d).replace(hour=23, minute=59, second=59)`,
the parsed `end_date` of line 69 of the script. -/
def dateEndSec (d : Date) : Int := (toOrdinal d.year d.month d.day : Int) * 86400 + 86399

/-! ## Python `pathlib` name handling and `str.split("_")` -/

/-- Index of the last occurrence of a dot in a character list
(`name.rfind` in `pathlib`). -/
def lastDotIdx : List Char → Option Nat
  | [] => none
  | c :: rest =>
    match lastDotIdx rest with
    | some i => some (i + 1)
    | none => if c = '.' then some 0 else none

/-- `pathlib.PurePath.suffix` of a file name: the final `"."` component,
provided the dot is neither the first nor the last character. -/
def pySuffix (cs : List Char) : List Char :=
  match lastDotIdx cs with
  | some i => if 0 < i && i + 1 < cs.length then cs.drop i else []
  | none => []

/-- `pathlib.PurePath.stem` of a file name: the name with `pySuffix` removed. -/
def stemChars (cs : List Char) : List Char :=
  match lastDotIdx cs with
  | some i => if 0 < i && i + 1 < cs.length then cs.take i else cs
  | none => cs

/-- Python `str.split("_")` (single-character separator, empty pieces kept). -/
def splitUnd : List Char → List (List Char)
  | [] => [[]]
  | c :: rest =>
    match splitUnd rest with
    | t :: ts => if c = '_' then [] :: t :: ts else (c :: t) :: ts
    | [] => if c = '_' then [[], []] else [[c]]

/-- The underscore-delimited tokens of a file name's stem
(`raster_file.stem.split("_")` in the script). -/
def tokensOf (name : String) : List (List Char) := splitUnd (stemChars name.data)

/-! ## Python `int()` on a token -/

/-- ASCII decimal digit test. -/
def isDig (c : Char) : Bool := 48 ≤ c.toNat && c.toNat ≤ 57

/-- Value of an ASCII digit. -/
def digN (c : Char) : Nat := c.toNat - 48

/-- Whitespace stripped by Python `int()` (the ASCII part; the tokens fed to
`int` here come from splitting a file name, where other whitespace kinds do
not occur in practice). -/
def isPyWs (c : Char) : Bool :=
  c = ' ' || c = '\t' || c = '\n' || c = '\r' || c.toNat == 11 || c.toNat == 12

/-- Digit-string value accumulator. -/
def digitsValAux (acc : Nat) : List Char → Option Nat
  | [] => some acc
  | c :: cs => if isDig c then digitsValAux (acc * 10 + digN c) cs else none

/-- Value of a non-empty all-digit character list, `none` otherwise. -/
def digitsVal : List Char → Option Nat
  | [] => none
  | c :: cs => if isDig c then digitsValAux (digN c) cs else none

/-- Value of an all-digit character list (no failure case). -/
def natValD (cs : List Char) : Nat := cs.foldl (fun a c => a * 10 + digN c) 0

/-- Strip leading and trailing whitespace. -/
def trimWs (cs : List Char) : List Char :=
  ((cs.dropWhile isPyWs).reverse.dropWhile isPyWs).reverse

/-- Python `int(token)`: optional surrounding whitespace, optional sign, then a
non-empty digit string.  (Underscore digit grouping cannot occur in tokens that
were produced by splitting on `"_"`.) -/
def pyInt (cs : List Char) : Option Int :=
  match trimWs cs with
  | [] => none
  | c :: rest =>
    if c = '+' then (digitsVal rest).map (fun n => (n : Int))
    else if c = '-' then (digitsVal rest).map (fun n => -(n : Int))
    else (digitsVal (c :: rest)).map (fun n => (n : Int))

/-! ## The File Selector's date filter (script lines 77-86)

A `.tif` file is kept iff `int(stem.split("_")[4])` and
`int(stem.split("_")[5])` both parse, `datetime(year, 1, 1)` is
constructible (`1 ≤ year ≤ 9999`), `pd.Timedelta(days=doy)` is within the
`Timedelta` 64-bit-nanosecond bounds (`|doy| ≤ 106751`), the sum is a
representable `datetime` (ordinal within `[1, maxOrdinal]`), and the
resulting midnight timestamp lies in `[start_date, end_date]`.  Every
failure raises inside the `try` of the loop and is caught: the file is
skipped with a warning. -/

/-- The timestamp (in seconds) the filter loop derives for a file name, or
`none` when any step of lines 80-82 raises (the file is then skipped). -/
def filterTs (name : String) : Option Int :=
  match (tokensOf name).get? 4, (tokensOf name).get? 5 with
  | some t4, some t5 =>
    match pyInt t4, pyInt t5 with
    | some y, some doy =>
      if 1 ≤ y && y ≤ 9999 && -106751 ≤ doy && doy ≤ 106751 then
        let o : Int := (daysBeforeYear y.toNat : Int) + 1 + doy
        if 1 ≤ o && o ≤ (maxOrdinal : Int) then some (o * 86400) else none
      else none
    | _, _ => none
  | _, _ => none

/-- The filter condition of line 82:
`start_date <= datetime(year, 1, 1) + Timedelta(days=doy) <= end_date`. -/
def inRangeB (name : String) (s e : Date) : Bool :=
  match filterTs name with
  | some t => dateStartSec s ≤ t && t ≤ dateEndSec e
  | none => false

/-! ## CPython `strptime` with format `"%Y%j%H"` (script lines 87 and 145)

`_strptime` compiles the format to the regex
`(?P<Y>\d\d\d\d)(?P<j>36[0-6]|3[0-5]\d|[1-2]\d\d|0[1-9]\d|00[1-9]|[1-9]\d|0[1-9]|[1-9])(?P<H>2[0-3]|[0-1]\d|\d)`,
applies `match` (not `fullmatch`) and then raises `ValueError` when
unconverted data remains.  Alternation is ordered and the engine backtracks
the day-of-year group when the hour group cannot match, but a non-empty
leftover after a successful regex match is an error with no further
backtracking.  The matched julian day is converted via
`date(year, 1, 1).toordinal() + j - 1`, so `j = 366` in a non-leap year
rolls into the next year rather than failing. -/

/-- `%Y`: exactly four digits. -/
def matchY : List Char → Option (Nat × List Char)
  | a :: b :: c :: d :: rest =>
    if isDig a && isDig b && isDig c && isDig d then
      some (digN a * 1000 + digN b * 100 + digN c * 10 + digN d, rest)
    else none
  | _ => none

/-- `%H`: two digits with value at most 23, else a single digit. -/
def matchH : List Char → Option (Nat × List Char)
  | a :: b :: rest =>
    if isDig a && isDig b && digN a * 10 + digN b ≤ 23 then
      some (digN a * 10 + digN b, rest)
    else if isDig a then some (digN a, b :: rest) else none
  | [a] => if isDig a then some (digN a, []) else none
  | [] => none

/-- `%j` three-digit alternatives (values 001-366) followed by `%H`. -/
def jh3 : List Char → Option (Nat × Nat × List Char)
  | a :: b :: c :: rest =>
    let v := digN a * 100 + digN b * 10 + digN c
    if isDig a && isDig b && isDig c && 1 ≤ v && v ≤ 366 then
      match matchH rest with
      | some (h, r) => some (v, h, r)
      | none => none
    else none
  | _ => none

/-- `%j` two-digit alternatives (values 01-99) followed by `%H`. -/
def jh2 : List Char → Option (Nat × Nat × List Char)
  | a :: b :: rest =>
    let v := digN a * 10 + digN b
    if isDig a && isDig b && 1 ≤ v then
      match matchH rest with
      | some (h, r) => some (v, h, r)
      | none => none
    else none
  | _ => none

/-- `%j` single-digit alternative (values 1-9) followed by `%H`. -/
def jh1 : List Char → Option (Nat × Nat × List Char)
  | a :: rest =>
    if isDig a && 1 ≤ digN a then
      match matchH rest with
      | some (h, r) => some (digN a, h, r)
      | none => none
    else none
  | [] => none

/-- `%j%H` with the regex engine's ordered alternation and backtracking. -/
def matchJH (cs : List Char) : Option (Nat × Nat × List Char) :=
  match jh3 cs with
  | some r => some r
  | none =>
    match jh2 cs with
    | some r => some r
    | none => jh1 cs

/-- `_strptime` on format `"%Y%j%H"`: the regex match plus the
unconverted-data check.  Returns the `(year, julian, hour)` time tuple. -/
def strptimeYjH (cs : List Char) : Option (Nat × Nat × Nat) :=
  match matchY cs with
  | none => none
  | some (y, r) =>
    match matchJH r with
    | none => none
    | some (j, h, leftover) => if leftover.isEmpty then some (y, j, h) else none

/-- `datetime.strptime(tok[4] + tok[5] + tok[6], "%Y%j%H")` on a file name:
token access (an out-of-range index raises), the regex parse, and the
`datetime` constructor validity of the rolled-over julian date. -/
def d2rParts (name : String) : Option (Nat × Nat × Nat) :=
  match (tokensOf name).get? 4, (tokensOf name).get? 5, (tokensOf name).get? 6 with
  | some t4, some t5, some t6 =>
    match strptimeYjH (t4 ++ t5 ++ t6) with
    | some (y, j, h) =>
      if 1 ≤ y && daysBeforeYear y + j ≤ maxOrdinal then some (y, j, h) else none
    | none => none
  | _, _, _ => none

/-- The sort key of script line 87 as seconds:
ordinal of `date(year, 1, 1) + (j - 1)` days, plus the hour. -/
def sortKeyOf (name : String) : Option Int :=
  (d2rParts name).map (fun p => ((daysBeforeYear p.1 + p.2.1 : Nat) : Int) * 86400 + (p.2.2 : Int) * 3600)

/-! ## The File Selector (script lines 74-88)

`sorted(selection, key=...)` first computes every key in list order (any
key failure — a missing token raising `IndexError`, or `strptime` raising
`ValueError` — aborts the whole call, since line 87 sits outside the
`try` of the filter loop), then sorts stably by the key.  Python's sort is
stable, and the stable sort of a list under a total preorder is unique, so
`List.insertionSort` (stable, see the check in `Mathlib.Data.List.Sort`) is
an extensionally faithful model.  Line 88 then evaluates
`raster_files_selection[0]`, which raises `IndexError` when the selection
is empty. -/

/-- Comparison of keyed files by key, the order `sorted` uses. -/
def keyLe (a b : String × Int) : Prop := a.2 ≤ b.2

instance : DecidableRel keyLe := fun a b => Int.decLe a.2 b.2

instance : IsTotal (String × Int) keyLe := ⟨fun a b => Int.le_total a.2 b.2⟩

instance : IsTrans (String × Int) keyLe := ⟨fun _ _ _ => Int.le_trans⟩

/-- Compute the sort key for every selected file, in list order; the first
failure aborts (modelling the uncaught `IndexError`/`ValueError` raised
while `sorted` builds its keys). -/
def keyAll : List String → Except String (List (String × Int))
  | [] => .ok []
  | f :: fs =>
    match sortKeyOf f with
    | none => .error "sort key error (IndexError or ValueError)"
    | some k =>
      match keyAll fs with
      | .error e => .error e
      | .ok ks => .ok ((f, k) :: ks)

/-- Line 74: the flat directory listing restricted to `.tif` files. -/
def tifFiles (files : List String) : List String :=
  files.filter (fun n => pySuffix n.data == ".tif".data)

/-- Lines 77-86: the `.tif` files that survive the date filter, in listing
order. -/
def selFilter (files : List String) (s e : Date) : List String :=
  (tifFiles files).filter (fun n => inRangeB n s e)

/-- Lines 74-88: the File Selector.  `files` is the directory listing in the
order `iterdir` produced it. -/
def selectFiles (files : List String) (s e : Date) : Except String (List String) :=
  match keyAll (selFilter files s e) with
  | .error msg => .error msg
  | .ok keyed =>
    if ((List.insertionSort keyLe keyed).map (fun p => p.1)).isEmpty then
      .error "IndexError: list index out of range"
    else .ok ((List.insertionSort keyLe keyed).map (fun p => p.1))

/-! ## ISO timestamp string (script line 145) -/

/-- Zero-padded two-digit decimal. -/
def pad2 (n : Nat) : String := if n < 10 then "0" ++ toString n else toString n

/-- Zero-padded four-digit decimal. -/
def pad4 (n : Nat) : String :=
  if n < 10 then "000" ++ toString n
  else if n < 100 then "00" ++ toString n
  else if n < 1000 then "0" ++ toString n
  else toString n

/-- Month and in-month day of the `j`-th day of year `y` (`1 ≤ j ≤ daysInYear y`). -/
def monthOfYdayAux (y j : Nat) : Nat → Nat → Nat × Nat
  | m, 0 => (m, j - daysBeforeMonth y m)
  | m, fuel + 1 =>
    if j ≤ daysBeforeMonth y (m + 1) then (m, j - daysBeforeMonth y m)
    else monthOfYdayAux y j (m + 1) fuel

/-- Civil date of julian day `j` of year `y`, with `_strptime`'s rollover of
`j = 366` in a non-leap year into January 1 of the next year. -/
def civilOfYearJulian (y j : Nat) : Nat × Nat × Nat :=
  if j ≤ daysInYear y then
    let md := monthOfYdayAux y j 1 11
    (y, md.1, md.2)
  else (y + 1, 1, j - daysInYear y)

/-- Line 145: `datetime.strptime(tok4 + tok5 + tok6, "%Y%j%H").isoformat() + "Z"`. -/
def isoZOf (name : String) : Option String :=
  (d2rParts name).map (fun p =>
    let c := civilOfYearJulian p.1 p.2.1
    pad4 c.1 ++ "-" ++ pad2 c.2.1 ++ "-" ++ pad2 c.2.2 ++ "T" ++ pad2 p.2.2 ++ ":00:00Z")

/-! ## The single-raster sampler `_d2r_sampling` (script lines 111-163) -/

/-- One record of the vector file: the `LeuchtenNr` identifier column (which
may be null) and the point geometry (null geometries are what `dropna`
removes).  Coordinates are abstract. -/
structure Record where
  leuchtenNr : Option Int
  geom : Option (Int × Int)
deriving DecidableEq, Repr

/-- One opened raster file: its CRS and the cell value `src.sample` yields at
given coordinates (`none` stands for the coordinates of a missing geometry).
The nearest-cell lookup itself is delegated to rasterio and is opaque here. -/
structure RasterData where
  crs : Nat
  valueAt : Option (Int × Int) → Int

/-- One output row of the sampler (the columns of the docstring table). -/
structure Row where
  lantern_id : Option Int
  datetime : String
  varname : String
  val : Int
  filename : String
deriving DecidableEq, Repr

/-- Pandas index alignment of line 144: `final_df` has index `0..n-1` while
the cleaned GeoDataFrame keeps its pre-`dropna` labels, so row `i` receives
the identifier of the record whose original label is `i` — or null when no
such label survived. -/
def alignId (labeled : List (Nat × Record)) (i : Nat) : Option Int :=
  match labeled.find? (fun p => p.1 == i) with
  | some p => p.2.leuchtenNr
  | none => none

/-- Lines 111-163, `_d2r_sampling`.  `labeled` is the cleaned point set with
its original pandas labels; `vcrs` is the vector file's CRS (the `crs`
argument); the second component of the result is the number of no-data rows
the warning of line 159 reports (0 means no warning). -/
def d2rSampling (rasterName : String) (labeled : List (Nat × Record))
    (varname : String) (nanValue : Int) (vcrs : Nat) (rst : RasterData) :
    Except String (List Row × Nat) :=
  match isoZOf rasterName with
  | none => .error "ValueError or IndexError while parsing the file name"
  | some ts =>
    if rst.crs == vcrs then
      let rows := labeled.enum.map (fun p =>
        { lantern_id := alignId labeled p.1
          datetime := ts
          varname := varname
          val := rst.valueAt p.2.2.geom
          filename := String.mk (stemChars rasterName.data) : Row })
      let warn := (rows.filter (fun r => r.val == nanValue)).length
      .ok (rows, warn)
    else .error "AssertionError: CRS mismatch"

/-! ## Orchestration, `sample` (script lines 28-109) -/

/-- Line 64: `gdf.dropna(subset=["geometry"], inplace=True)` keeps the
records with non-null geometry together with their original labels. -/
def labeledOf (records : List Record) : List (Nat × Record) :=
  records.enum.filter (fun p => p.2.geom.isSome)

/-- The per-file sampling loop: left to right, first error aborts the run. -/
def mapExcept (g : α → Except String β) : List α → Except String (List β)
  | [] => .ok []
  | a :: as =>
    match g a with
    | .error e => .error e
    | .ok b =>
      match mapExcept g as with
      | .error e => .error e
      | .ok bs => .ok (b :: bs)

/-- Lines 28-109, `sample`, after the external steps (config load, variable
lookup, vector read, date-string parsing) have produced their values:
clean the point set, select the files, sample each in order, concatenate. -/
def sample (records : List Record) (vcrs : Nat) (varname : String)
    (nanValue : Int) (files : List String) (raster : String → RasterData)
    (s e : Date) : Except String (List Row) :=
  let labeled := labeledOf records
  match selectFiles files s e with
  | .error msg => .error msg
  | .ok sel =>
    match mapExcept (fun f => d2rSampling f labeled varname nanValue vcrs (raster f)) sel with
    | .error msg => .error msg
    | .ok tabs => .ok (tabs.map (fun p => p.1)).flatten

/-! ## `datetime.strptime(s, "%Y%m%d")` (script lines 68-69) -/

/-- `%d`: regex `3[0-1]|[1-2]\d|0[1-9]|[1-9]| [1-9]` (a space-padded day is
accepted too). -/
def matchDay : List Char → Option (Nat × List Char)
  | a :: b :: rest =>
    if (a = '3' && isDig b && digN b ≤ 1) || ((a = '1' || a = '2') && isDig b)
        || (a = '0' && isDig b && 1 ≤ digN b) then
      some (digN a * 10 + digN b, rest)
    else if isDig a && 1 ≤ digN a then some (digN a, b :: rest)
    else if a = ' ' && isDig b && 1 ≤ digN b then some (digN b, rest)
    else none
  | [a] => if isDig a && 1 ≤ digN a then some (digN a, []) else none
  | [] => none

/-- `%m%d` with a one-digit month (`[1-9]`) followed by `%d`. -/
def monDay1 : List Char → Option (Nat × Nat × List Char)
  | a :: rest =>
    if isDig a && 1 ≤ digN a then
      match matchDay rest with
      | some (d, r) => some (digN a, d, r)
      | none => none
    else none
  | [] => none

/-- `%m%d` (month regex `1[0-2]|0[1-9]|[1-9]`): the engine first tries a
two-digit month and backtracks to the one-digit alternative when `%d`
cannot match afterwards. -/
def monDay : List Char → Option (Nat × Nat × List Char)
  | a :: b :: rest =>
    if (a = '1' && isDig b && digN b ≤ 2) || (a = '0' && isDig b && 1 ≤ digN b) then
      match matchDay rest with
      | some (d, r) => some (digN a * 10 + digN b, d, r)
      | none => monDay1 (a :: b :: rest)
    else monDay1 (a :: b :: rest)
  | cs => monDay1 cs

/-- `datetime.strptime(s, "%Y%m%d")`: regex parse, unconverted-data check,
and the `datetime` constructor's validity check. -/
def pyStrptimeYmd (s : String) : Option Date :=
  match matchY s.data with
  | none => none
  | some (y, r1) =>
    match monDay r1 with
    | none => none
    | some (m, d, leftover) =>
      if leftover.isEmpty && 1 ≤ y && d ≤ daysInMonth y m then some ⟨y, m, d⟩
      else none

/-! ## The spec's reading of the derived timestamp

The specification describes the derived full timestamp as "year,
day-of-year, hour combined": January 1 of the year plus `doy` days plus the
hour, each token read as a plain integer. -/

/-- Modelled from the spec: the full derived `(year, day-of-year, hour)`
timestamp of a file name, with each token parsed by `int()`; used to compare
the spec's ordering statement against the code's `strptime`-based key. -/
def specSortKey (name : String) : Option Int :=
  match (tokensOf name).get? 4, (tokensOf name).get? 5, (tokensOf name).get? 6 with
  | some t4, some t5, some t6 =>
    match pyInt t4, pyInt t5, pyInt t6 with
    | some y, some doy, some h =>
      if 1 ≤ y && y ≤ 9999 then
        some (((daysBeforeYear y.toNat : Int) + 1 + doy) * 86400 + h * 3600)
      else none
    | _, _, _ => none
  | _, _, _ => none

/-- Ascending order in the sense of the spec's derived timestamp. -/
def specLe (a b : String) : Prop := (specSortKey a).getD 0 ≤ (specSortKey b).getD 0

/-- Ascending order by the code's `strptime` sort key. -/
def codeKeyLe (a b : String) : Prop := (sortKeyOf a).getD 0 ≤ (sortKeyOf b).getD 0

/-- A file name whose year, day-of-year and hour tokens have the canonical
zero-padded widths of the configured filename mask (`[YEAR]` four digits,
`[DOY]` three digits with value 1-366, `[HOUR]` two digits with value 0-23). -/
def canonicalName (name : String) : Bool :=
  match (tokensOf name).get? 4, (tokensOf name).get? 5, (tokensOf name).get? 6 with
  | some t4, some t5, some t6 =>
    t4.length == 4 && t4.all isDig && 1 ≤ natValD t4 &&
      t5.length == 3 && t5.all isDig && 1 ≤ natValD t5 && natValD t5 ≤ 366 &&
      t6.length == 2 && t6.all isDig && natValD t6 ≤ 23
  | _, _, _ => false

/-! ## Auxiliary notions used by the statements -/

/-- Whether an `Except` value is an error (the run raised). -/
def isErr (x : Except String α) : Bool :=
  match x with
  | .error _ => true
  | .ok _ => false

/-- The per-row metadata facts of the sampler: the `filename` column holds the
raster file's stem, and the `datetime` column holds the file's
`strptime`-derived ISO timestamp with the `"Z"` designator. -/
def rowMetaOk (rasterName : String) (r : Row) : Bool :=
  r.filename == String.mk (stemChars rasterName.data) &&
    some r.datetime == isoZOf rasterName

/-- The raw cell values the raster yields at the cleaned points, in point-set
order. -/
def rawVals (labeled : List (Nat × Record)) (rst : RasterData) : List Int :=
  labeled.map (fun p => rst.valueAt p.2.geom)

/-- The selected files' sort keys are pairwise distinct (no ties for the
stable sort to break by listing order). -/
def distinctKeys (files : List String) (s e : Date) : Prop :=
  ((selFilter files s e).map sortKeyOf).Nodup

/-- A concrete sample row used by the demonstration instances below. -/
def demoRow (id : Int) : Row :=
  { lantern_id := some id
    datetime := "2024-07-31T12:00:00Z"
    varname := "UTCI"
    val := 5
    filename := "VAR_a_b_c_2024_213_12" }

/-! ## Helper lemmas -/

theorem keyAll_ok_fst {l : List String} {ks : List (String × Int)}
    (h : keyAll l = .ok ks) : ks.map (fun p => p.1) = l := by
  induction l generalizing ks with
  | nil =>
    simp only [keyAll] at h
    cases h
    rfl
  | cons f fs ih =>
    simp only [keyAll] at h
    cases hk : sortKeyOf f with
    | none => rw [hk] at h; cases h
    | some k =>
      rw [hk] at h
      cases hrest : keyAll fs with
      | error e => rw [hrest] at h; cases h
      | ok ks2 =>
        rw [hrest] at h
        cases h
        simpa using ih hrest

theorem keyAll_ok_key {l : List String} {ks : List (String × Int)}
    (h : keyAll l = .ok ks) : ∀ p ∈ ks, sortKeyOf p.1 = some p.2 := by
  induction l generalizing ks with
  | nil =>
    simp only [keyAll] at h
    cases h
    intro p hp
    cases hp
  | cons f fs ih =>
    simp only [keyAll] at h
    cases hk : sortKeyOf f with
    | none => rw [hk] at h; cases h
    | some k =>
      rw [hk] at h
      cases hrest : keyAll fs with
      | error e => rw [hrest] at h; cases h
      | ok ks2 =>
        rw [hrest] at h
        cases h
        intro p hp
        rcases List.mem_cons.mp hp with h1 | h2
        · subst h1; exact hk
        · exact ih hrest p h2

theorem keyAll_ok_of_all_some {l : List String}
    (h : ∀ f ∈ l, sortKeyOf f ≠ none) :
    keyAll l = .ok (l.map (fun f => (f, (sortKeyOf f).getD 0))) := by
  induction l with
  | nil => rfl
  | cons f fs ih =>
    simp only [keyAll]
    cases hk : sortKeyOf f with
    | none => exact absurd hk (h f (List.mem_cons_self f fs))
    | some k =>
      rw [ih (fun g hg => h g (List.mem_cons_of_mem f hg))]
      simp [hk]

theorem keyAll_error_of_mem_none {l : List String} {f : String}
    (hf : f ∈ l) (hk : sortKeyOf f = none) :
    keyAll l = .error "sort key error (IndexError or ValueError)" := by
  induction l with
  | nil => cases hf
  | cons g gs ih =>
    simp only [keyAll]
    rcases List.mem_cons.mp hf with h1 | h2
    · subst h1; rw [hk]
    · cases hkg : sortKeyOf g with
      | none => rfl
      | some k => rw [ih h2]

theorem selFilter_sortKey_some {files : List String} {s e : Date} {keyed : List (String × Int)}
    (h : keyAll (selFilter files s e) = .ok keyed) :
    ∀ f ∈ selFilter files s e, sortKeyOf f ≠ none := by
  intro f hf hnone
  rw [keyAll_error_of_mem_none hf hnone] at h
  cases h

/-- Unfolding of a successful `selectFiles`: the output is the stable sort of
the filtered listing and is non-empty. -/
theorem selectFiles_ok_elim {files : List String} {s e : Date} {out : List String}
    (h : selectFiles files s e = .ok out) :
    out = (List.insertionSort keyLe
        ((selFilter files s e).map (fun f => (f, (sortKeyOf f).getD 0)))).map (fun p => p.1) ∧
      out ≠ [] := by
  unfold selectFiles at h
  cases hka : keyAll (selFilter files s e) with
  | error msg => rw [hka] at h; cases h
  | ok keyed =>
    rw [hka] at h
    have hsome := selFilter_sortKey_some hka
    rw [keyAll_ok_of_all_some hsome] at hka
    cases hka
    dsimp only at h
    by_cases hemp : ((List.insertionSort keyLe
        ((selFilter files s e).map (fun f => (f, (sortKeyOf f).getD 0)))).map
          (fun p => p.1)).isEmpty = true
    · rw [if_pos hemp] at h; cases h
    · rw [if_neg hemp] at h
      cases h
      exact ⟨rfl, by simpa [List.isEmpty_iff] using hemp⟩

/-- Membership in a successful selection is exactly membership in the
filtered listing. -/
theorem selectFiles_ok_mem {files : List String} {s e : Date} {out : List String}
    (h : selectFiles files s e = .ok out) :
    ∀ n, n ∈ out ↔ n ∈ selFilter files s e := by
  intro n
  rw [(selectFiles_ok_elim h).1]
  constructor
  · intro hn
    rcases List.mem_map.mp hn with ⟨p, hp, hfst⟩
    have hpk : p ∈ (selFilter files s e).map (fun f => (f, (sortKeyOf f).getD 0)) :=
      (List.perm_insertionSort keyLe _).mem_iff.mp hp
    rcases List.mem_map.mp hpk with ⟨g, hg, hgp⟩
    cases hgp
    cases hfst
    exact hg
  · intro hn
    refine List.mem_map.mpr ⟨(n, (sortKeyOf n).getD 0), ?_, rfl⟩
    exact (List.perm_insertionSort keyLe _).mem_iff.mpr
      (List.mem_map.mpr ⟨n, hn, rfl⟩)

/-- A successfully selected file came from the directory listing. -/
theorem selFilter_subset {files : List String} {s e : Date} :
    ∀ n ∈ selFilter files s e, n ∈ files := by
  intro n hn
  have h1 := (List.mem_filter.mp hn).1
  exact (List.mem_filter.mp h1).1

/-- A successful selection is pairwise ascending in the code's sort key. -/
theorem selectFiles_ok_pairwise {files : List String} {s e : Date} {out : List String}
    (h : selectFiles files s e = .ok out) : out.Pairwise codeKeyLe := by
  rw [(selectFiles_ok_elim h).1]
  refine List.pairwise_map.mpr ?_
  have hsorted : List.Pairwise keyLe (List.insertionSort keyLe
      ((selFilter files s e).map (fun f => (f, (sortKeyOf f).getD 0)))) :=
    List.sorted_insertionSort keyLe _
  refine hsorted.imp_of_mem ?_
  intro a b ha hb hle
  have ha2 : a.2 = (sortKeyOf a.1).getD 0 := by
    have hmem := (List.perm_insertionSort keyLe _).mem_iff.mp ha
    rcases List.mem_map.mp hmem with ⟨g, _, hg⟩
    cases hg
    rfl
  have hb2 : b.2 = (sortKeyOf b.1).getD 0 := by
    have hmem := (List.perm_insertionSort keyLe _).mem_iff.mp hb
    rcases List.mem_map.mp hmem with ⟨g, _, hg⟩
    cases hg
    rfl
  unfold codeKeyLe
  rw [← ha2, ← hb2]
  exact hle

/-- Unfolding of a successful `_d2r_sampling`. -/
theorem d2rSampling_ok_elim {rasterName : String} {labeled : List (Nat × Record)}
    {varname : String} {nanValue : Int} {vcrs : Nat} {rst : RasterData}
    {rows : List Row} {w : Nat}
    (h : d2rSampling rasterName labeled varname nanValue vcrs rst = .ok (rows, w)) :
    ∃ ts, isoZOf rasterName = some ts ∧ rst.crs = vcrs ∧
      rows = labeled.enum.map (fun p =>
        { lantern_id := alignId labeled p.1
          datetime := ts
          varname := varname
          val := rst.valueAt p.2.2.geom
          filename := String.mk (stemChars rasterName.data) : Row }) ∧
      w = (rows.filter (fun r => r.val == nanValue)).length := by
  unfold d2rSampling at h
  cases hiso : isoZOf rasterName with
  | none => rw [hiso] at h; cases h
  | some ts =>
    rw [hiso] at h
    dsimp only at h
    by_cases hcrs : (rst.crs == vcrs) = true
    · rw [if_pos hcrs] at h
      refine ⟨ts, rfl, by simpa [beq_iff_eq] using hcrs, ?_⟩
      cases h
      exact ⟨rfl, rfl⟩
    · rw [if_neg hcrs] at h
      cases h

/-- A table produced inside a successful sampling loop comes from one of the
selected files. -/
theorem mapExcept_ok_elim {g : α → Except String β} {l : List α} {bs : List β}
    (h : mapExcept g l = .ok bs) : ∀ b ∈ bs, ∃ a ∈ l, g a = .ok b := by
  induction l generalizing bs with
  | nil =>
    simp only [mapExcept] at h
    cases h
    intro b hb
    cases hb
  | cons a as ih =>
    simp only [mapExcept] at h
    cases hga : g a with
    | error e => rw [hga] at h; cases h
    | ok b0 =>
      rw [hga] at h
      cases hrest : mapExcept g as with
      | error e => rw [hrest] at h; cases h
      | ok bs2 =>
        rw [hrest] at h
        cases h
        intro b hb
        rcases List.mem_cons.mp hb with h1 | h2
        · subst h1; exact ⟨a, List.mem_cons_self a as, hga⟩
        · rcases ih hrest b h2 with ⟨a2, ha2, hga2⟩
          exact ⟨a2, List.mem_cons_of_mem a ha2, hga2⟩

/-! ## Claim theorems -/

/-- C6: with exactly `VAR_a_b_c_2024_213_12.tif` and `VAR_a_b_c_2024_214_00.tif`
in the directory and the requested range `20240801`-`20240801`, the File
Selector selects only the first file (day-of-year token 213). -/
theorem C6_same_day_range_selects_only_doy213 :
    pyStrptimeYmd "20240801" = some ⟨2024, 8, 1⟩ ∧
      selectFiles ["VAR_a_b_c_2024_213_12.tif", "VAR_a_b_c_2024_214_00.tif"]
        ⟨2024, 8, 1⟩ ⟨2024, 8, 1⟩ = .ok ["VAR_a_b_c_2024_213_12.tif"] :=
  ⟨rfl, rfl⟩

/-- C10: the hour token never influences the date-range filter: two `.tif`
names with equal year (index 4) and day-of-year (index 5) tokens are both
kept or both dropped by the filter, for every date range. -/
theorem C10_hour_token_never_influences_membership (n1 n2 : String) (s e : Date)
    (ht1 : pySuffix n1.data = ".tif".data) (ht2 : pySuffix n2.data = ".tif".data)
    (h4 : (tokensOf n1).get? 4 = (tokensOf n2).get? 4)
    (h5 : (tokensOf n1).get? 5 = (tokensOf n2).get? 5) :
    inRangeB n1 s e = inRangeB n2 s e := by
  unfold inRangeB filterTs
  rw [h4, h5]

/-- Witness for C10 at two names that differ only in the hour token. -/
theorem C10_witness :
    pySuffix "s_a_b_c_2024_213_00.tif".data = ".tif".data ∧
      pySuffix "s_a_b_c_2024_213_23.tif".data = ".tif".data ∧
      (tokensOf "s_a_b_c_2024_213_00.tif").get? 4 = (tokensOf "s_a_b_c_2024_213_23.tif").get? 4 ∧
      (tokensOf "s_a_b_c_2024_213_00.tif").get? 5 = (tokensOf "s_a_b_c_2024_213_23.tif").get? 5 ∧
      inRangeB "s_a_b_c_2024_213_00.tif" ⟨2024, 8, 1⟩ ⟨2024, 8, 1⟩ =
        inRangeB "s_a_b_c_2024_213_23.tif" ⟨2024, 8, 1⟩ ⟨2024, 8, 1⟩ :=
  ⟨rfl, rfl, rfl, rfl,
    C10_hour_token_never_influences_membership _ _ _ _ rfl rfl rfl rfl⟩

/-- C4: a CRS mismatch between the raster and the vector file is fatal: the
sampler raises and yields no rows. -/
theorem C4_crs_mismatch_fatal (rasterName : String) (labeled : List (Nat × Record))
    (varname : String) (nanValue : Int) (vcrs : Nat) (rst : RasterData)
    (hcrs : rst.crs ≠ vcrs) :
    isErr (d2rSampling rasterName labeled varname nanValue vcrs rst) = true := by
  unfold d2rSampling
  cases hiso : isoZOf rasterName with
  | none => rfl
  | some ts =>
    dsimp only
    rw [if_neg (by simpa [beq_iff_eq] using hcrs)]
    rfl

/-- Witness for C4: EPSG 4326 raster against an EPSG 25832 vector file. -/
theorem C4_witness :
    (4326 : Nat) ≠ 25832 ∧
      isErr (d2rSampling "VAR_a_b_c_2024_213_12.tif" [(0, ⟨some 1, some (0, 0)⟩)]
        "UTCI" (-9999) 25832 ⟨4326, fun _ => 5⟩) = true :=
  ⟨by decide,
    C4_crs_mismatch_fatal "VAR_a_b_c_2024_213_12.tif" [(0, ⟨some 1, some (0, 0)⟩)]
      "UTCI" (-9999) 25832 ⟨4326, fun _ => 5⟩ (by decide)⟩

/-- C8: when no file matches the date range, the request fails with the
`IndexError` of script line 88: no sampling happens and no table is
produced. -/
theorem C8_empty_selection_fatal (records : List Record) (vcrs : Nat) (varname : String)
    (nanValue : Int) (files : List String) (raster : String → RasterData) (s e : Date)
    (hempty : selFilter files s e = []) :
    sample records vcrs varname nanValue files raster s e =
      .error "IndexError: list index out of range" := by
  unfold sample selectFiles
  rw [hempty]
  rfl

/-- Witness for C8: a directory whose only file is out of range. -/
theorem C8_witness :
    selFilter ["far_a_b_c_2023_001_00.tif"] ⟨2024, 8, 1⟩ ⟨2024, 8, 1⟩ = [] ∧
      sample [⟨some 1, some (0, 0)⟩] 25832 "UTCI" (-9999)
        ["far_a_b_c_2023_001_00.tif"] (fun _ => ⟨25832, fun _ => 5⟩)
        ⟨2024, 8, 1⟩ ⟨2024, 8, 1⟩ = .error "IndexError: list index out of range" :=
  ⟨rfl,
    C8_empty_selection_fatal [⟨some 1, some (0, 0)⟩] 25832 "UTCI" (-9999)
      ["far_a_b_c_2023_001_00.tif"] (fun _ => ⟨25832, fun _ => 5⟩)
      ⟨2024, 8, 1⟩ ⟨2024, 8, 1⟩ rfl⟩

/-- C3, counterexample: `bad_a_b_c_2024_213.tif` has the wrong token count
(no hour token), passes the year/day-of-year filter for `20240801`, and then
aborts the whole selection inside `sorted` (line 87 is outside the `try`),
even though the validly named `ok_a_b_c_2024_213_12.tif` is in range — so a
parse failure can abort the selection, contrary to the claim. -/
theorem C3_counterexample :
    inRangeB "bad_a_b_c_2024_213.tif" ⟨2024, 8, 1⟩ ⟨2024, 8, 1⟩ = true ∧
      selectFiles ["ok_a_b_c_2024_213_12.tif", "bad_a_b_c_2024_213.tif"]
        ⟨2024, 8, 1⟩ ⟨2024, 8, 1⟩ = .error "sort key error (IndexError or ValueError)" ∧
      selectFiles ["ok_a_b_c_2024_213_12.tif"] ⟨2024, 8, 1⟩ ⟨2024, 8, 1⟩ =
        .ok ["ok_a_b_c_2024_213_12.tif"] :=
  ⟨rfl, rfl, rfl⟩

/-- C3, amended: a filename that fails to parse at the year or day-of-year
token (indices 4 and 5) during filtering is skipped and never aborts the
selection — removing it from the listing changes nothing.  (A file that
passes the filter but whose hour token is missing or unparseable still
aborts the sort, per the counterexample.) -/
theorem C3_amended_filter_parse_failure_skipped (l1 l2 : List String) (f : String)
    (s e : Date) (hf : filterTs f = none) :
    selectFiles (l1 ++ f :: l2) s e = selectFiles (l1 ++ l2) s e := by
  have hrange : inRangeB f s e = false := by
    unfold inRangeB
    rw [hf]
  have hsel : selFilter (l1 ++ f :: l2) s e = selFilter (l1 ++ l2) s e := by
    unfold selFilter tifFiles
    by_cases htif : (pySuffix f.data == ".tif".data) = true
    · simp only [List.filter_append, List.filter_cons, htif, hrange]
      simp [List.filter_cons, hrange]
    · simp only [List.filter_append, List.filter_cons, htif]
      simp
  unfold selectFiles
  rw [hsel]

/-- Witness for the amended C3: dropping an unparseable name (its stem has
no token at index 4) leaves the selection unchanged. -/
theorem C3_amended_witness :
    filterTs "bad.tif" = none ∧
      selectFiles ["ok_a_b_c_2024_213_12.tif", "bad.tif"] ⟨2024, 8, 1⟩ ⟨2024, 8, 1⟩ =
        selectFiles ["ok_a_b_c_2024_213_12.tif"] ⟨2024, 8, 1⟩ ⟨2024, 8, 1⟩ :=
  ⟨rfl,
    C3_amended_filter_parse_failure_skipped ["ok_a_b_c_2024_213_12.tif"] [] "bad.tif"
      ⟨2024, 8, 1⟩ ⟨2024, 8, 1⟩ rfl⟩

/-- C2, counterexample: the sampler writes the raster file's *stem* into the
`filename` column (script line 161: `str(raster_path.stem)`), not the file's
name: for `VAR_a_b_c_2024_213_12.tif` every row carries
`"VAR_a_b_c_2024_213_12"`, which differs from the file's name. -/
theorem C2_counterexample :
    d2rSampling "VAR_a_b_c_2024_213_12.tif" [(0, ⟨some 1, some (0, 0)⟩)]
        "UTCI" (-9999) 25832 ⟨25832, fun _ => 5⟩ =
      .ok ([{ lantern_id := some 1, datetime := "2024-07-31T12:00:00Z",
              varname := "UTCI", val := 5,
              filename := "VAR_a_b_c_2024_213_12" }], 0) ∧
      "VAR_a_b_c_2024_213_12" ≠ "VAR_a_b_c_2024_213_12.tif" :=
  ⟨rfl, by decide⟩

/-- C2, amended: for a point set with `n` cleaned points and one raster file,
a successful sampler run yields exactly `n` rows, each carrying the raster
file's *stem* in `filename` and the file's single `strptime`-derived
ISO-8601 timestamp with the `"Z"` UTC designator in `datetime`. -/
theorem C2_amended_rows_per_point (rasterName : String) (labeled : List (Nat × Record))
    (varname : String) (nanValue : Int) (vcrs : Nat) (rst : RasterData)
    (rows : List Row) (w : Nat)
    (hok : d2rSampling rasterName labeled varname nanValue vcrs rst = .ok (rows, w)) :
    rows.length = labeled.length ∧ rows.all (rowMetaOk rasterName) = true := by
  rcases d2rSampling_ok_elim hok with ⟨ts, hiso, _, hrows, _⟩
  subst hrows
  constructor
  · simp
  · rw [List.all_eq_true]
    intro r hr
    rcases List.mem_map.mp hr with ⟨p, _, hp⟩
    cases hp
    simp [rowMetaOk, hiso]

/-- Witness for the amended C2: four points, one file, four rows. -/
theorem C2_amended_witness :
    d2rSampling "VAR_a_b_c_2024_213_12.tif"
        [(0, ⟨some 1, some (0, 0)⟩), (1, ⟨some 2, some (0, 1)⟩),
         (2, ⟨some 3, some (1, 0)⟩), (3, ⟨some 4, some (1, 1)⟩)]
        "UTCI" (-9999) 25832 ⟨25832, fun _ => 5⟩ =
      .ok ([demoRow 1, demoRow 2, demoRow 3, demoRow 4], 0) ∧
      [demoRow 1, demoRow 2, demoRow 3, demoRow 4].length = 4 ∧
      [demoRow 1, demoRow 2, demoRow 3, demoRow 4].all
        (rowMetaOk "VAR_a_b_c_2024_213_12.tif") = true := by
  refine ⟨rfl, rfl, ?_⟩
  exact (C2_amended_rows_per_point "VAR_a_b_c_2024_213_12.tif"
    [(0, ⟨some 1, some (0, 0)⟩), (1, ⟨some 2, some (0, 1)⟩),
     (2, ⟨some 3, some (1, 0)⟩), (3, ⟨some 4, some (1, 1)⟩)]
    "UTCI" (-9999) 25832 ⟨25832, fun _ => 5⟩
    [demoRow 1, demoRow 2, demoRow 3, demoRow 4] 0 (by rfl)).2

/-- C5: rows whose value equals the no-data sentinel are retained unmodified
— the output `val` column is exactly the raw cell values, in point order —
and the warning count is the true number of sentinel-valued cells. -/
theorem C5_nodata_retained_and_counted (rasterName : String)
    (labeled : List (Nat × Record)) (varname : String) (nanValue : Int)
    (vcrs : Nat) (rst : RasterData) (rows : List Row) (w : Nat)
    (hok : d2rSampling rasterName labeled varname nanValue vcrs rst = .ok (rows, w)) :
    rows.map (fun r => r.val) = rawVals labeled rst ∧
      w = (rawVals labeled rst).countP (fun v => v == nanValue) := by
  rcases d2rSampling_ok_elim hok with ⟨ts, _, _, hrows, hw⟩
  subst hrows
  have hvals : (labeled.enum.map (fun p =>
      { lantern_id := alignId labeled p.1
        datetime := ts
        varname := varname
        val := rst.valueAt p.2.2.geom
        filename := String.mk (stemChars rasterName.data) : Row })).map (fun r => r.val) =
      rawVals labeled rst := by
    rw [List.map_map]
    unfold rawVals
    calc labeled.enum.map ((fun r : Row => r.val) ∘ (fun p =>
          { lantern_id := alignId labeled p.1
            datetime := ts
            varname := varname
            val := rst.valueAt p.2.2.geom
            filename := String.mk (stemChars rasterName.data) : Row }))
        = labeled.enum.map ((fun q : Nat × Record => rst.valueAt q.2.geom) ∘ Prod.snd) := rfl
      _ = (labeled.enum.map Prod.snd).map (fun q : Nat × Record => rst.valueAt q.2.geom) := by
          rw [List.map_map]
      _ = labeled.map (fun q : Nat × Record => rst.valueAt q.2.geom) := by
          rw [List.enum_map_snd]
  refine ⟨hvals, ?_⟩
  rw [hw, ← List.countP_eq_length_filter]
  have h2 := List.countP_map (fun v : Int => v == nanValue) (fun r : Row => r.val)
    (l := labeled.enum.map (fun p =>
      { lantern_id := alignId labeled p.1
        datetime := ts
        varname := varname
        val := rst.valueAt p.2.2.geom
        filename := String.mk (stemChars rasterName.data) : Row }))
  rw [hvals] at h2
  exact h2.symm

/-- Witness for C5: two points, one sentinel-valued cell, warning count 1. -/
theorem C5_witness :
    d2rSampling "VAR_a_b_c_2024_213_12.tif"
        [(0, ⟨some 1, some (0, 0)⟩), (1, ⟨some 2, some (9, 9)⟩)]
        "UTCI" (-9999) 25832
        ⟨25832, fun g => if g = some (0, 0) then -9999 else 5⟩ =
      .ok ([{ lantern_id := some 1, datetime := "2024-07-31T12:00:00Z",
              varname := "UTCI", val := -9999, filename := "VAR_a_b_c_2024_213_12" },
            { lantern_id := some 2, datetime := "2024-07-31T12:00:00Z",
              varname := "UTCI", val := 5, filename := "VAR_a_b_c_2024_213_12" }], 1) ∧
      [(-9999 : Int), 5].countP (fun v => v == (-9999 : Int)) = 1 ∧
      ([{ lantern_id := some 1, datetime := "2024-07-31T12:00:00Z",
          varname := "UTCI", val := -9999, filename := "VAR_a_b_c_2024_213_12" },
        { lantern_id := some 2, datetime := "2024-07-31T12:00:00Z",
          varname := "UTCI", val := 5, filename := "VAR_a_b_c_2024_213_12" }] : List Row).map
        (fun r => r.val) =
        rawVals [(0, ⟨some 1, some (0, 0)⟩), (1, ⟨some 2, some (9, 9)⟩)]
          ⟨25832, fun g => if g = some (0, 0) then -9999 else 5⟩ := by
  refine ⟨by rfl, by rfl, ?_⟩
  exact (C5_nodata_retained_and_counted "VAR_a_b_c_2024_213_12.tif"
    [(0, ⟨some 1, some (0, 0)⟩), (1, ⟨some 2, some (9, 9)⟩)] "UTCI" (-9999) 25832
    ⟨25832, fun g => if g = some (0, 0) then -9999 else 5⟩
    [{ lantern_id := some 1, datetime := "2024-07-31T12:00:00Z",
       varname := "UTCI", val := -9999, filename := "VAR_a_b_c_2024_213_12" },
     { lantern_id := some 2, datetime := "2024-07-31T12:00:00Z",
       varname := "UTCI", val := 5, filename := "VAR_a_b_c_2024_213_12" }] 1 (by rfl)).1

/-- C1, counterexample: both `a_b_c_d_2024_20_5.tif` (day-of-year 20, hour 5)
and `a_b_c_d_2024_3_00.tif` (day-of-year 3, hour 0) are selected for 2024,
but the greedy `strptime("%Y%j%H")` re-parse of the unpadded concatenated
tokens reads `"2024300"` as day 30 hour 0, so the output keeps the
day-of-year-20 file *before* the day-of-year-3 file: the sequence is not
ascending in the derived (year, day-of-year, hour) timestamp. -/
theorem C1_counterexample :
    selectFiles ["a_b_c_d_2024_20_5.tif", "a_b_c_d_2024_3_00.tif"]
        ⟨2024, 1, 1⟩ ⟨2024, 12, 31⟩ =
      .ok ["a_b_c_d_2024_20_5.tif", "a_b_c_d_2024_3_00.tif"] ∧
      ¬ specLe "a_b_c_d_2024_20_5.tif" "a_b_c_d_2024_3_00.tif" :=
  ⟨rfl, by unfold specLe; decide⟩

/-- C7: a record with null geometry is dropped before sampling — it is
absent from the cleaned point set — and every row of a successful run draws
its value from the geometry of some cleaned (non-null-geometry) record of
some listed file. -/
theorem C7_null_geometry_dropped (records : List Record) (vcrs : Nat)
    (varname : String) (nanValue : Int) (files : List String)
    (raster : String → RasterData) (s e : Date) (i : Nat) (r0 : Record)
    (hi : records[i]? = some r0) (hnull : r0.geom = none) (rows : List Row)
    (hok : sample records vcrs varname nanValue files raster s e = .ok rows) :
    (∀ rec : Record, (i, rec) ∉ labeledOf records) ∧
      ∀ row ∈ rows, ∃ j rec pt, (j, rec) ∈ labeledOf records ∧ rec.geom = some pt ∧
        ∃ f ∈ files, row.val = (raster f).valueAt (some pt) := by
  constructor
  · intro rec hmem
    have h1 := List.mem_filter.mp hmem
    have h2 : records[i]? = some rec := by
      simpa using List.mk_mem_enum_iff_getElem?.mp h1.1
    rw [hi] at h2
    cases h2
    rw [hnull] at h1
    simp at h1
  · intro row hrow
    unfold sample at hok
    cases hsel : selectFiles files s e with
    | error msg => rw [hsel] at hok; cases hok
    | ok sel =>
      rw [hsel] at hok
      dsimp only at hok
      cases hmap : mapExcept
          (fun f => d2rSampling f (labeledOf records) varname nanValue vcrs (raster f)) sel with
      | error msg => rw [hmap] at hok; cases hok
      | ok tabs =>
        rw [hmap] at hok
        cases hok
        rcases List.mem_flatten.mp hrow with ⟨tb, htb, hrowtb⟩
        rcases List.mem_map.mp htb with ⟨pr, hpr, hprtb⟩
        rcases mapExcept_ok_elim hmap pr hpr with ⟨f, hfsel, hfok⟩
        have hffiles : f ∈ files :=
          selFilter_subset f ((selectFiles_ok_mem hsel f).mp hfsel)
        cases hpr2 : pr with
        | mk rws wn =>
          rw [hpr2] at hfok hprtb
          rcases d2rSampling_ok_elim hfok with ⟨ts, _, _, hrows, _⟩
          dsimp only at hprtb
          subst hprtb
          rw [hrows] at hrowtb
          rcases List.mem_map.mp hrowtb with ⟨p, hp, hprow⟩
          have hplab : p.2 ∈ labeledOf records := by
            have := List.mk_mem_enum_iff_getElem?.mp (by simpa using hp)
            exact List.getElem?_mem (by simpa using this)
          have hgeom : p.2.2.geom.isSome := by
            have := (List.mem_filter.mp hplab).2
            simpa using this
          rcases Option.isSome_iff_exists.mp hgeom with ⟨pt, hpt⟩
          refine ⟨p.2.1, p.2.2, pt, by simpa using hplab, hpt, f, hffiles, ?_⟩
          cases hprow
          dsimp only
          rw [hpt]

/-- Witness for C7: the null-geometry record at position 1 is not in the
cleaned point set. -/
theorem C7_witness :
    ((1 : Nat), (⟨some 2, none⟩ : Record)) ∉
      labeledOf [⟨some 1, some (0, 0)⟩, ⟨some 2, none⟩] :=
  (C7_null_geometry_dropped [⟨some 1, some (0, 0)⟩, ⟨some 2, none⟩] 25832 "UTCI" (-9999)
    ["VAR_a_b_c_2024_213_12.tif"] (fun _ => ⟨25832, fun _ => 5⟩) ⟨2024, 8, 1⟩ ⟨2024, 8, 1⟩
    1 ⟨some 2, none⟩ (by rfl) rfl
    [{ lantern_id := some 1, datetime := "2024-07-31T12:00:00Z",
       varname := "UTCI", val := 5, filename := "VAR_a_b_c_2024_213_12" }]
    (by rfl)).1 ⟨some 2, none⟩

/-- C9, counterexample: two raster files with identical year/day-of-year/hour
tokens tie on the sort key, so the stable sort keeps their directory-listing
order; listing the same directory contents in a different order (as
`iterdir` may) produces a different output table, so the pipeline is not a
function of the directory *contents* alone. -/
theorem C9_counterexample :
    (["A_x_y_z_2024_213_12.tif", "B_x_y_z_2024_213_12.tif"].Perm
        ["B_x_y_z_2024_213_12.tif", "A_x_y_z_2024_213_12.tif"]) ∧
      sample [⟨some 1, some (0, 0)⟩] 25832 "UTCI" (-9999)
          ["A_x_y_z_2024_213_12.tif", "B_x_y_z_2024_213_12.tif"]
          (fun _ => ⟨25832, fun _ => 7⟩) ⟨2024, 8, 1⟩ ⟨2024, 8, 1⟩ =
        .ok [{ lantern_id := some 1, datetime := "2024-07-31T12:00:00Z",
               varname := "UTCI", val := 7, filename := "A_x_y_z_2024_213_12" },
             { lantern_id := some 1, datetime := "2024-07-31T12:00:00Z",
               varname := "UTCI", val := 7, filename := "B_x_y_z_2024_213_12" }] ∧
      sample [⟨some 1, some (0, 0)⟩] 25832 "UTCI" (-9999)
          ["B_x_y_z_2024_213_12.tif", "A_x_y_z_2024_213_12.tif"]
          (fun _ => ⟨25832, fun _ => 7⟩) ⟨2024, 8, 1⟩ ⟨2024, 8, 1⟩ =
        .ok [{ lantern_id := some 1, datetime := "2024-07-31T12:00:00Z",
               varname := "UTCI", val := 7, filename := "B_x_y_z_2024_213_12" },
             { lantern_id := some 1, datetime := "2024-07-31T12:00:00Z",
               varname := "UTCI", val := 7, filename := "A_x_y_z_2024_213_12" }] ∧
      ([{ lantern_id := some 1, datetime := "2024-07-31T12:00:00Z",
          varname := "UTCI", val := 7, filename := "A_x_y_z_2024_213_12" },
        { lantern_id := some 1, datetime := "2024-07-31T12:00:00Z",
          varname := "UTCI", val := 7, filename := "B_x_y_z_2024_213_12" }] : List Row) ≠
        [{ lantern_id := some 1, datetime := "2024-07-31T12:00:00Z",
           varname := "UTCI", val := 7, filename := "B_x_y_z_2024_213_12" },
         { lantern_id := some 1, datetime := "2024-07-31T12:00:00Z",
           varname := "UTCI", val := 7, filename := "A_x_y_z_2024_213_12" }] :=
  ⟨List.Perm.swap _ _ _, by rfl, by rfl, by decide⟩

/-- The selection is invariant under permuting the directory listing as long
as the selected files' sort keys are pairwise distinct. -/
theorem selectFiles_perm_eq {L1 L2 : List String} {s e : Date}
    (hperm : L1.Perm L2) (hdist : distinctKeys L1 s e) :
    selectFiles L1 s e = selectFiles L2 s e := by
  have hselperm : (selFilter L1 s e).Perm (selFilter L2 s e) := by
    unfold selFilter tifFiles
    exact (hperm.filter _).filter _
  by_cases hbad : ∃ f ∈ selFilter L1 s e, sortKeyOf f = none
  · rcases hbad with ⟨f, hf, hk⟩
    unfold selectFiles
    rw [keyAll_error_of_mem_none hf hk,
      keyAll_error_of_mem_none (hselperm.mem_iff.mp hf) hk]
  · push_neg at hbad
    have hsome2 : ∀ f ∈ selFilter L2 s e, sortKeyOf f ≠ none := fun f hf =>
      hbad f (hselperm.mem_iff.mpr hf)
    unfold selectFiles
    rw [keyAll_ok_of_all_some hbad, keyAll_ok_of_all_some hsome2]
    have hkeyedperm : ((selFilter L1 s e).map (fun f => (f, (sortKeyOf f).getD 0))).Perm
        ((selFilter L2 s e).map (fun f => (f, (sortKeyOf f).getD 0))) :=
      hselperm.map _
    have hpairs1 : ((selFilter L1 s e).map (fun f => (f, (sortKeyOf f).getD 0))).Pairwise
        (fun a b : String × Int => a.2 ≠ b.2) := by
      refine List.pairwise_map.mpr ?_
      have hnd : (selFilter L1 s e).Pairwise (fun f g => sortKeyOf f ≠ sortKeyOf g) :=
        List.pairwise_map.mp hdist
      refine hnd.imp_of_mem ?_
      intro f g hfm hgm hne heq
      rcases Option.ne_none_iff_exists.mp (hbad f hfm) with ⟨kf, hkf⟩
      rcases Option.ne_none_iff_exists.mp (hbad g hgm) with ⟨kg, hkg⟩
      apply hne
      rw [← hkf, ← hkg]
      simp only [← hkf, Option.getD_some] at heq
      simp only [← hkg, Option.getD_some] at heq
      rw [heq]
    have hlt1 : List.Pairwise (fun a b : String × Int => a.2 < b.2)
        (List.insertionSort keyLe
          ((selFilter L1 s e).map (fun f => (f, (sortKeyOf f).getD 0)))) := by
      have hle : List.Pairwise keyLe (List.insertionSort keyLe
          ((selFilter L1 s e).map (fun f => (f, (sortKeyOf f).getD 0)))) :=
        List.sorted_insertionSort keyLe _
      have hne : List.Pairwise (fun a b : String × Int => a.2 ≠ b.2)
          (List.insertionSort keyLe
            ((selFilter L1 s e).map (fun f => (f, (sortKeyOf f).getD 0)))) :=
        ((List.perm_insertionSort keyLe _).pairwise_iff
          (fun h heq => h heq.symm)).mpr hpairs1
      exact (hle.and hne).imp (fun h => lt_of_le_of_ne h.1 h.2)
    have hpairs2 : ((selFilter L2 s e).map (fun f => (f, (sortKeyOf f).getD 0))).Pairwise
        (fun a b : String × Int => a.2 ≠ b.2) :=
      (hkeyedperm.pairwise_iff (fun h heq => h heq.symm)).mp hpairs1
    have hlt2 : List.Pairwise (fun a b : String × Int => a.2 < b.2)
        (List.insertionSort keyLe
          ((selFilter L2 s e).map (fun f => (f, (sortKeyOf f).getD 0)))) := by
      have hle : List.Pairwise keyLe (List.insertionSort keyLe
          ((selFilter L2 s e).map (fun f => (f, (sortKeyOf f).getD 0)))) :=
        List.sorted_insertionSort keyLe _
      have hne : List.Pairwise (fun a b : String × Int => a.2 ≠ b.2)
          (List.insertionSort keyLe
            ((selFilter L2 s e).map (fun f => (f, (sortKeyOf f).getD 0)))) :=
        ((List.perm_insertionSort keyLe _).pairwise_iff
          (fun h heq => h heq.symm)).mpr hpairs2
      exact (hle.and hne).imp (fun h => lt_of_le_of_ne h.1 h.2)
    have hsortperm : (List.insertionSort keyLe
        ((selFilter L1 s e).map (fun f => (f, (sortKeyOf f).getD 0)))).Perm
        (List.insertionSort keyLe
          ((selFilter L2 s e).map (fun f => (f, (sortKeyOf f).getD 0)))) :=
      ((List.perm_insertionSort keyLe _).trans hkeyedperm).trans
        (List.perm_insertionSort keyLe _).symm
    haveI : IsAntisymm (String × Int) (fun a b => a.2 < b.2) :=
      ⟨fun a b h1 h2 => absurd (lt_trans h1 h2) (lt_irrefl _)⟩
    dsimp only
    rw [List.eq_of_perm_of_sorted hsortperm hlt1 hlt2]

/-- C9, amended: the pipeline is a deterministic function of its inputs
including the directory listing order, and whenever the selected files'
sort keys are pairwise distinct the output is independent of the listing
order, i.e. a function of the directory contents; ties are ordered by the
listing order (see the counterexample). -/
theorem C9_amended_deterministic (records : List Record) (vcrs : Nat)
    (varname : String) (nanValue : Int) (L1 L2 : List String)
    (raster : String → RasterData) (s e : Date)
    (hperm : L1.Perm L2) (hdist : distinctKeys L1 s e) :
    sample records vcrs varname nanValue L1 raster s e =
      sample records vcrs varname nanValue L2 raster s e := by
  unfold sample
  rw [selectFiles_perm_eq hperm hdist]

/-- Witness for the amended C9: distinct keys, permuted listing, equal
output. -/
theorem C9_amended_witness :
    (["A_x_y_z_2024_213_12.tif", "B_x_y_z_2024_214_00.tif"].Perm
        ["B_x_y_z_2024_214_00.tif", "A_x_y_z_2024_213_12.tif"]) ∧
      distinctKeys ["A_x_y_z_2024_213_12.tif", "B_x_y_z_2024_214_00.tif"]
        ⟨2024, 8, 1⟩ ⟨2024, 8, 2⟩ ∧
      sample [⟨some 1, some (0, 0)⟩] 25832 "UTCI" (-9999)
          ["A_x_y_z_2024_213_12.tif", "B_x_y_z_2024_214_00.tif"]
          (fun _ => ⟨25832, fun _ => 7⟩) ⟨2024, 8, 1⟩ ⟨2024, 8, 2⟩ =
        sample [⟨some 1, some (0, 0)⟩] 25832 "UTCI" (-9999)
          ["B_x_y_z_2024_214_00.tif", "A_x_y_z_2024_213_12.tif"]
          (fun _ => ⟨25832, fun _ => 7⟩) ⟨2024, 8, 1⟩ ⟨2024, 8, 2⟩ :=
  ⟨List.Perm.swap _ _ _, by unfold distinctKeys; decide,
    C9_amended_deterministic [⟨some 1, some (0, 0)⟩] 25832 "UTCI" (-9999)
      ["A_x_y_z_2024_213_12.tif", "B_x_y_z_2024_214_00.tif"]
      ["B_x_y_z_2024_214_00.tif", "A_x_y_z_2024_213_12.tif"]
      (fun _ => ⟨25832, fun _ => 7⟩) ⟨2024, 8, 1⟩ ⟨2024, 8, 2⟩
      (List.Perm.swap _ _ _) (by unfold distinctKeys; decide)⟩

/-! ## Canonical (mask-shaped) tokens and the two sort keys -/

theorem exists_two {t : List Char} (h : t.length = 2) : ∃ a b, t = [a, b] :=
  List.length_eq_two.mp h

theorem exists_three {t : List Char} (h : t.length = 3) : ∃ a b c, t = [a, b, c] :=
  List.length_eq_three.mp h

theorem exists_four {t : List Char} (h : t.length = 4) : ∃ a b c d, t = [a, b, c, d] := by
  cases t with
  | nil => simp at h
  | cons a t2 =>
    have h3 : t2.length = 3 := by simpa using h
    rcases List.length_eq_three.mp h3 with ⟨b, c, d, rfl⟩
    exact ⟨a, b, c, d, rfl⟩

theorem digN_le_nine {c : Char} (h : isDig c = true) : digN c ≤ 9 := by
  unfold isDig at h
  rw [Bool.and_eq_true, decide_eq_true_eq, decide_eq_true_eq] at h
  unfold digN
  omega

theorem isPyWs_false_of_isDig {c : Char} (h : isDig c = true) : isPyWs c = false := by
  unfold isDig at h
  rw [Bool.and_eq_true, decide_eq_true_eq, decide_eq_true_eq] at h
  unfold isPyWs
  have h32 : c ≠ ' ' := by intro hc; subst hc; exact absurd h (by decide)
  have h9 : c ≠ '\t' := by intro hc; subst hc; exact absurd h (by decide)
  have h10 : c ≠ '\n' := by intro hc; subst hc; exact absurd h (by decide)
  have h13 : c ≠ '\r' := by intro hc; subst hc; exact absurd h (by decide)
  have h11 : c.toNat ≠ 11 := by omega
  have h12 : c.toNat ≠ 12 := by omega
  simp [h32, h9, h10, h13, h11, h12]

theorem digitsValAux_digits {t : List Char} (hd : t.all isDig = true) :
    ∀ acc, digitsValAux acc t = some (t.foldl (fun a c => a * 10 + digN c) acc) := by
  induction t with
  | nil => intro acc; rfl
  | cons c cs ih =>
    intro acc
    rw [List.all_cons, Bool.and_eq_true] at hd
    unfold digitsValAux
    rw [if_pos hd.1]
    rw [ih hd.2]
    rfl

theorem digitsVal_digits {t : List Char} (hne : t ≠ []) (hd : t.all isDig = true) :
    digitsVal t = some (natValD t) := by
  cases t with
  | nil => cases hne rfl
  | cons c cs =>
    rw [List.all_cons, Bool.and_eq_true] at hd
    unfold digitsVal
    dsimp only
    rw [if_pos hd.1, digitsValAux_digits hd.2]
    simp [natValD, List.foldl]

theorem dropWhile_ws_digits {t : List Char} (hd : t.all isDig = true) :
    t.dropWhile isPyWs = t := by
  cases t with
  | nil => rfl
  | cons c cs =>
    rw [List.all_cons, Bool.and_eq_true] at hd
    rw [List.dropWhile_cons]
    rw [isPyWs_false_of_isDig hd.1]
    simp

theorem trimWs_digits {t : List Char} (hd : t.all isDig = true) : trimWs t = t := by
  unfold trimWs
  rw [dropWhile_ws_digits hd]
  have hrev : t.reverse.all isDig = true := by
    rw [List.all_eq_true] at hd ⊢
    intro c hc
    exact hd c (List.mem_reverse.mp hc)
  rw [dropWhile_ws_digits hrev, List.reverse_reverse]

theorem pyInt_digits {t : List Char} (hne : t ≠ []) (hd : t.all isDig = true) :
    pyInt t = some ((natValD t : Nat) : Int) := by
  unfold pyInt
  rw [trimWs_digits hd]
  cases t with
  | nil => cases hne rfl
  | cons c cs =>
    have hdc : isDig c = true := by
      rw [List.all_cons, Bool.and_eq_true] at hd
      exact hd.1
    have hplus : c ≠ '+' := by
      intro hc
      subst hc
      unfold isDig at hdc
      rw [Bool.and_eq_true, decide_eq_true_eq, decide_eq_true_eq] at hdc
      simp at hdc
    have hminus : c ≠ '-' := by
      intro hc
      subst hc
      unfold isDig at hdc
      rw [Bool.and_eq_true, decide_eq_true_eq, decide_eq_true_eq] at hdc
      simp at hdc
    dsimp only
    rw [if_neg hplus, if_neg hminus, digitsVal_digits hne hd]
    rfl

theorem matchY_append {t rest : List Char} (h4 : t.length = 4) (hd : t.all isDig = true) :
    matchY (t ++ rest) = some (natValD t, rest) := by
  rcases exists_four h4 with ⟨a, b, c, d, rfl⟩
  simp only [List.all_cons, List.all_nil, Bool.and_eq_true, and_true] at hd
  obtain ⟨ha, hb, hc, hd2⟩ := hd
  have hnv : natValD [a, b, c, d] = digN a * 1000 + digN b * 100 + digN c * 10 + digN d := by
    simp [natValD, List.foldl]
    omega
  simp only [List.cons_append, List.nil_append]
  unfold matchY
  dsimp only
  rw [ha, hb, hc, hd2]
  simp [hnv]

theorem matchH_two {t rest : List Char} (h2 : t.length = 2) (hd : t.all isDig = true)
    (hv : natValD t ≤ 23) : matchH (t ++ rest) = some (natValD t, rest) := by
  rcases exists_two h2 with ⟨a, b, rfl⟩
  simp only [List.all_cons, List.all_nil, Bool.and_eq_true, and_true] at hd
  obtain ⟨ha, hb⟩ := hd
  have hnv : natValD [a, b] = digN a * 10 + digN b := by
    simp [natValD, List.foldl]
  rw [hnv] at hv
  simp only [List.cons_append, List.nil_append]
  unfold matchH
  dsimp only
  rw [ha, hb]
  simp [hnv, hv]

theorem matchJH_canonical {t5 t6 : List Char}
    (h5 : t5.length = 3) (hd5 : t5.all isDig = true)
    (hv5a : 1 ≤ natValD t5) (hv5b : natValD t5 ≤ 366)
    (h6 : t6.length = 2) (hd6 : t6.all isDig = true) (hv6 : natValD t6 ≤ 23) :
    matchJH (t5 ++ t6) = some (natValD t5, natValD t6, []) := by
  rcases exists_three h5 with ⟨a, b, c, rfl⟩
  simp only [List.all_cons, List.all_nil, Bool.and_eq_true, and_true] at hd5
  obtain ⟨ha, hb, hc⟩ := hd5
  have hnv : natValD [a, b, c] = digN a * 100 + digN b * 10 + digN c := by
    simp [natValD]
    omega
  rw [hnv] at hv5a hv5b
  have hmH : matchH (t6 ++ ([] : List Char)) = some (natValD t6, []) :=
    matchH_two h6 hd6 hv6
  rw [List.append_nil] at hmH
  have hjh3 : jh3 ([a, b, c] ++ t6) =
      some (digN a * 100 + digN b * 10 + digN c, natValD t6, []) := by
    simp only [List.cons_append, List.nil_append]
    unfold jh3
    dsimp only
    rw [ha, hb, hc]
    simp [hv5a, hv5b, hmH]
  unfold matchJH
  rw [hjh3, hnv]

theorem strptime_canonical {t4 t5 t6 : List Char}
    (h4 : t4.length = 4) (hd4 : t4.all isDig = true)
    (h5 : t5.length = 3) (hd5 : t5.all isDig = true)
    (hv5a : 1 ≤ natValD t5) (hv5b : natValD t5 ≤ 366)
    (h6 : t6.length = 2) (hd6 : t6.all isDig = true) (hv6 : natValD t6 ≤ 23) :
    strptimeYjH (t4 ++ t5 ++ t6) = some (natValD t4, natValD t5, natValD t6) := by
  rw [List.append_assoc]
  unfold strptimeYjH
  rw [matchY_append h4 hd4]
  dsimp only
  rw [matchJH_canonical h5 hd5 hv5a hv5b h6 hd6 hv6]
  rfl

theorem natValD_four_le {t : List Char} (h4 : t.length = 4) (hd : t.all isDig = true) :
    natValD t ≤ 9999 := by
  rcases exists_four h4 with ⟨a, b, c, d, rfl⟩
  simp only [List.all_cons, List.all_nil, Bool.and_eq_true, and_true] at hd
  obtain ⟨ha, hb, hc, hd2⟩ := hd
  have := digN_le_nine ha
  have := digN_le_nine hb
  have := digN_le_nine hc
  have := digN_le_nine hd2
  simp [natValD, List.foldl]
  omega

/-- On a canonical (mask-shaped) name whose code key exists, the spec's
derived timestamp exists and exceeds the code's `strptime` key by exactly
one day (the code filter uses `Jan 1 + doy` days while `strptime`'s julian
day is 1-based), so the two orders agree. -/
theorem specSortKey_of_canonical {name : String} {k : Int}
    (hc : canonicalName name = true) (hk : sortKeyOf name = some k) :
    specSortKey name = some (k + 86400) := by
  unfold canonicalName at hc
  cases hg4 : (tokensOf name).get? 4 with
  | none => rw [hg4] at hc; cases hc
  | some t4 =>
  cases hg5 : (tokensOf name).get? 5 with
  | none => rw [hg4, hg5] at hc; cases hc
  | some t5 =>
  cases hg6 : (tokensOf name).get? 6 with
  | none => rw [hg4, hg5, hg6] at hc; cases hc
  | some t6 =>
    rw [hg4, hg5, hg6] at hc
    dsimp only at hc
    simp only [Bool.and_eq_true, beq_iff_eq, decide_eq_true_eq, List.all_eq_true] at hc
    obtain ⟨⟨⟨⟨⟨⟨⟨⟨h4len, h4dig⟩, h4v⟩, h5len⟩, h5dig⟩, h5v1⟩, h5v2⟩, h6len⟩, h6dig⟩ := hc.1
    obtain h6v := hc.2
    have h4dig2 : t4.all isDig = true := List.all_eq_true.mpr h4dig
    have h5dig2 : t5.all isDig = true := List.all_eq_true.mpr h5dig
    have h6dig2 : t6.all isDig = true := List.all_eq_true.mpr h6dig
    have hstr := strptime_canonical h4len h4dig2 h5len h5dig2 h5v1 h5v2 h6len h6dig2 h6v
    unfold sortKeyOf d2rParts at hk
    rw [hg4, hg5, hg6] at hk
    dsimp only at hk
    rw [hstr] at hk
    dsimp only at hk
    by_cases hcond : (1 ≤ natValD t4 && daysBeforeYear (natValD t4) + natValD t5 ≤ maxOrdinal) = true
    · rw [if_pos hcond] at hk
      simp only [Option.map] at hk
      have hk2 : ((daysBeforeYear (natValD t4) + natValD t5 : Nat) : Int) * 86400 +
          ((natValD t6 : Nat) : Int) * 3600 = k := by
        injection hk
      have h4ne : t4 ≠ [] := by
        intro hnil
        rw [hnil] at h4len
        simp at h4len
      have h5ne : t5 ≠ [] := by
        intro hnil
        rw [hnil] at h5len
        simp at h5len
      have h6ne : t6 ≠ [] := by
        intro hnil
        rw [hnil] at h6len
        simp at h6len
      unfold specSortKey
      rw [hg4, hg5, hg6]
      dsimp only
      rw [pyInt_digits h4ne h4dig2, pyInt_digits h5ne h5dig2, pyInt_digits h6ne h6dig2]
      dsimp only
      have h4le : natValD t4 ≤ 9999 := natValD_four_le h4len h4dig2
      split
      · rw [Option.some_inj, Int.toNat_natCast, ← hk2]
        push_cast
        ring
      · next hcondF =>
        exfalso
        apply hcondF
        rw [Bool.and_eq_true, decide_eq_true_eq, decide_eq_true_eq]
        constructor
        · exact_mod_cast h4v
        · exact_mod_cast h4le
    · rw [if_neg hcond] at hk
      cases hk

/-- From a successful selection, every filtered file has a sort key. -/
theorem selectFiles_ok_keys {files : List String} {s e : Date} {out : List String}
    (h : selectFiles files s e = .ok out) :
    ∀ f ∈ selFilter files s e, sortKeyOf f ≠ none := by
  unfold selectFiles at h
  cases hka : keyAll (selFilter files s e) with
  | error msg => rw [hka] at h; cases h
  | ok keyed => exact selFilter_sortKey_some hka

/-- C1, amended: for every valid date range, a selection that completes
contains exactly the `.tif` files whose year/day-of-year filter timestamp
lies in `[start, end-of-end-day]`, and is ascending in the code's
`strptime`-based sort key; when every selected name has canonical
(mask-shaped, zero-padded) tokens this order coincides with ascending order
of the spec's derived (year, day-of-year, hour) timestamp.  (For
non-canonical token widths the two orders can differ, per the
counterexample.) -/
theorem C1_membership_and_order (files : List String) (s e : Date) (out : List String)
    (hs : validYmd s = true) (he : validYmd e = true)
    (hrange : dateStartSec s ≤ dateStartSec e)
    (hok : selectFiles files s e = .ok out) :
    (∀ n, n ∈ out ↔ (n ∈ files ∧ pySuffix n.data = ".tif".data ∧ inRangeB n s e = true)) ∧
      out.Pairwise codeKeyLe ∧
      ((∀ n ∈ out, canonicalName n = true) → out.Pairwise specLe) := by
  refine ⟨?_, selectFiles_ok_pairwise hok, ?_⟩
  · intro n
    rw [selectFiles_ok_mem hok n]
    unfold selFilter tifFiles
    simp only [List.mem_filter, beq_iff_eq]
    tauto
  · intro hcanon
    have hpw := selectFiles_ok_pairwise hok
    have hkeys := selectFiles_ok_keys hok
    refine hpw.imp_of_mem ?_
    intro a b ha hb hle
    have hka : sortKeyOf a ≠ none := hkeys a ((selectFiles_ok_mem hok a).mp ha)
    have hkb : sortKeyOf b ≠ none := hkeys b ((selectFiles_ok_mem hok b).mp hb)
    rcases Option.ne_none_iff_exists.mp hka with ⟨ka, hka2⟩
    rcases Option.ne_none_iff_exists.mp hkb with ⟨kb, hkb2⟩
    have hsa := specSortKey_of_canonical (hcanon a ha) hka2.symm
    have hsb := specSortKey_of_canonical (hcanon b hb) hkb2.symm
    unfold specLe
    rw [hsa, hsb]
    unfold codeKeyLe at hle
    rw [← hka2, ← hkb2] at hle
    simp only [Option.getD_some] at hle ⊢
    omega

/-- Witness for the amended C1 at the two-file directory of the C6 scenario. -/
theorem C1_witness :
    (("VAR_a_b_c_2024_213_12.tif" ∈ (["VAR_a_b_c_2024_213_12.tif"] : List String)) ↔
        ("VAR_a_b_c_2024_213_12.tif" ∈
            ["VAR_a_b_c_2024_213_12.tif", "VAR_a_b_c_2024_214_00.tif"] ∧
          pySuffix "VAR_a_b_c_2024_213_12.tif".data = ".tif".data ∧
          inRangeB "VAR_a_b_c_2024_213_12.tif" ⟨2024, 8, 1⟩ ⟨2024, 8, 1⟩ = true)) ∧
      (["VAR_a_b_c_2024_213_12.tif"] : List String).Pairwise codeKeyLe ∧
      (["VAR_a_b_c_2024_213_12.tif"] : List String).Pairwise specLe := by
  have h := C1_membership_and_order
    ["VAR_a_b_c_2024_213_12.tif", "VAR_a_b_c_2024_214_00.tif"]
    ⟨2024, 8, 1⟩ ⟨2024, 8, 1⟩ ["VAR_a_b_c_2024_213_12.tif"]
    (by rfl) (by rfl) (le_refl _) (by rfl)
  refine ⟨h.1 "VAR_a_b_c_2024_213_12.tif", h.2.1, h.2.2 ?_⟩
  intro n hn
  rw [List.mem_singleton] at hn
  subst hn
  rfl

end SampleVectorFromRaster
